import Mathlib

/-!
Verification of the Docker snapshot collector (`docker/snapshot.go`).

The Go code is shallowly embedded: every Docker-engine call that the
collector performs is a field of `DockerCalls` (an `Option` result, `none`
meaning the call failed), and each `snapshotX` step function, as well as
the `createSnapshot` pipeline, is a direct translation of the corresponding
Go function.  Machine integers (`int`, `int64`) are modelled as `Int`;
the node-resource accumulation, where Go's wrapping `int64` addition can
overflow, wraps every addition into the `int64` range via `wrapInt64`,
and Go's truncating `int64` division is `Int.tdiv`.  The container
counters are Go `int` increments bounded by the slice length and cannot
wrap.
-/

namespace PortainerAgent

/-- Substring containment on lists of characters, mirroring Go's
`strings.Contains` (for a non-empty pattern): `containsSub l pat` is true
iff `pat` occurs contiguously inside `l`. -/
def startsWithSub : List Char → List Char → Bool
  | _, [] => true
  | [], _ :: _ => false
  | a :: as, b :: bs => a == b && startsWithSub as bs

/-- Scan every suffix of `l` for `pat` as a prefix. -/
def containsSub (l pat : List Char) : Bool :=
  startsWithSub l pat ||
    match l with
    | [] => false
    | _ :: as => containsSub as pat

/-- Go `strings.Contains s pat` from the standard library, on our
character-list model of strings. -/
def strContains (s pat : String) : Bool :=
  containsSub s.toList pat.toList

/-- A container as returned by the engine's container list call
(`types.Container`): the fields the snapshot code reads. -/
structure Container where
  id : String
  state : String
  status : String
  labels : List (String × String)
deriving Repr, DecidableEq

/-- Model of `portainer.DockerContainerSnapshot`: a listed container with
its resolved environment variables. -/
structure DockerContainerSnapshot where
  container : Container
  env : List String
deriving Repr, DecidableEq

/-- A swarm service spec: the snapshot code only reads its labels. -/
structure ServiceSpec where
  labels : List (String × String)
deriving Repr, DecidableEq

/-- A swarm service (`swarm.Service`). -/
structure Service where
  spec : ServiceSpec
deriving Repr, DecidableEq

/-- Node resources (`swarm.Resources`): nano-CPUs and memory bytes. -/
structure NodeResources where
  nanoCPUs : Int
  memoryBytes : Int
deriving Repr, DecidableEq

/-- Node description (`swarm.NodeDescription`). -/
structure NodeDescription where
  resources : NodeResources
deriving Repr, DecidableEq

/-- A swarm node (`swarm.Node`). -/
structure Node where
  description : NodeDescription
deriving Repr, DecidableEq

/-- Swarm section of the engine info (`swarm.Info`). -/
structure SwarmInfo where
  controlAvailable : Bool
deriving Repr, DecidableEq

/-- Engine info (`types.Info`): the fields the snapshot code reads. -/
structure Info where
  swarm : SwarmInfo
  serverVersion : String
  ncpu : Int
  memTotal : Int
deriving Repr, DecidableEq

/-- An image summary; the snapshot only counts and stores these. -/
structure Image where
  id : String
deriving Repr, DecidableEq

/-- A volume; the snapshot only counts and stores these. -/
structure Volume where
  name : String
deriving Repr, DecidableEq

/-- The volume list response body (`volume.VolumeListOKBody`). -/
structure VolumeListOKBody where
  volumes : List Volume
deriving Repr, DecidableEq

/-- A network resource; stored verbatim. -/
structure Network where
  name : String
deriving Repr, DecidableEq

/-- Engine version metadata (`types.Version`); stored verbatim. -/
structure Version where
  version : String
deriving Repr, DecidableEq

/-- Model of `portainer.DockerSnapshotRaw`: verbatim payloads kept on the
snapshot.  `none` / `[]` are the Go zero values (field never assigned). -/
structure SnapshotRaw where
  info : Option Info
  containers : List DockerContainerSnapshot
  images : List Image
  volumes : Option VolumeListOKBody
  networks : List Network
  version : Option Version
deriving Repr, DecidableEq

/-- Model of `portainer.DockerSnapshot`: the aggregate result structure. -/
structure DockerSnapshot where
  time : Int
  dockerVersion : String
  swarm : Bool
  totalCPU : Int
  totalMemory : Int
  runningContainerCount : Nat
  stoppedContainerCount : Nat
  healthyContainerCount : Nat
  unhealthyContainerCount : Nat
  volumeCount : Nat
  imageCount : Nat
  serviceCount : Nat
  stackCount : Nat
  nodeCount : Nat
  snapshotRaw : SnapshotRaw
deriving Repr, DecidableEq

/-- The zero-valued snapshot `&portainer.DockerSnapshot{StackCount: 0}`
that `CreateSnapshot` starts from. -/
def initialSnapshot : DockerSnapshot :=
  { time := 0
    dockerVersion := ""
    swarm := false
    totalCPU := 0
    totalMemory := 0
    runningContainerCount := 0
    stoppedContainerCount := 0
    healthyContainerCount := 0
    unhealthyContainerCount := 0
    volumeCount := 0
    imageCount := 0
    serviceCount := 0
    stackCount := 0
    nodeCount := 0
    snapshotRaw :=
      { info := none, containers := [], images := [], volumes := none
        networks := [], version := none } }

/-- The outcomes of every Docker-engine call one run of `CreateSnapshot`
can make.  `none` models the call returning an error; `containerInspect`
maps a container id to the inspected `Config.Env`.  `now` is the value
`time.Now().Unix()` stamps at the end. -/
structure DockerCalls where
  newClientOk : Bool
  pingOk : Bool
  infoRes : Option Info
  serviceListRes : Option (List Service)
  nodeListRes : Option (List Node)
  containerListRes : Option (List Container)
  containerInspect : String → Option (List String)
  imageListRes : Option (List Image)
  volumeListRes : Option VolumeListOKBody
  networkListRes : Option (List Network)
  versionRes : Option Version
  now : Int

/-- The swarm stack label key used by `snapshotSwarmServices`. -/
def stackNamespaceLabel : String := "com.docker.stack.namespace"

/-- The compose project label key used by `snapshotContainers`. -/
def composeProjectLabel : String := "com.docker.compose.project"

/-- Insertion into the dedup set `stackSet` (a Go `map[string]struct{}`,
modelled as a duplicate-free list of inserted values). -/
def stackSetInsert (stackSet : List String) (v : String) : List String :=
  if v ∈ stackSet then stackSet else v :: stackSet

/-- The inner label loop: for each label pair whose key is `key`, insert
its value into the dedup set. -/
def labelStacksFold (key : String) (acc : List String)
    (labels : List (String × String)) : List String :=
  labels.foldl (fun a kv => if kv.1 = key then stackSetInsert a kv.2 else a) acc

/-- Go `snapshotInfo`: on success set the swarm flag, version, CPU and
memory totals and retain the raw info; on failure leave the snapshot
untouched (the caller only logs). -/
def snapshotInfo (cli : DockerCalls) (s : DockerSnapshot) : DockerSnapshot :=
  match cli.infoRes with
  | none => s
  | some info =>
    { s with
      swarm := info.swarm.controlAvailable
      dockerVersion := info.serverVersion
      totalCPU := info.ncpu
      totalMemory := info.memTotal
      snapshotRaw := { s.snapshotRaw with info := some info } }

/-- Reduction of an integer into the `int64` range, the result of a Go
`int64` operation: two's-complement wraparound. -/
def wrapInt64 (x : Int) : Int :=
  (x + 2 ^ 63) % 2 ^ 64 - 2 ^ 63

/-- The sum of a list of integers as Go computes it with an `int64`
accumulator: every addition wraps. -/
def int64Sum (l : List Int) : Int :=
  l.foldl (fun a x => wrapInt64 (a + x)) 0

/-- Membership in the `int64` range. -/
def inInt64Range (x : Int) : Prop :=
  -(2 ^ 63) ≤ x ∧ x < 2 ^ 63

/-- Go `snapshotNodes`: sum nano-CPUs and memory bytes over the node list
with wrapping `int64` additions, then overwrite the totals (`int64`
division by `1e9` truncates, hence `Int.tdiv`) and record the node
count. -/
def snapshotNodes (cli : DockerCalls) (s : DockerSnapshot) : DockerSnapshot :=
  match cli.nodeListRes with
  | none => s
  | some nodes =>
    let acc := nodes.foldl
      (fun (p : Int × Int) node =>
        (wrapInt64 (p.1 + node.description.resources.nanoCPUs),
         wrapInt64 (p.2 + node.description.resources.memoryBytes))) (0, 0)
    { s with
      totalCPU := acc.1.tdiv 1000000000
      totalMemory := acc.2
      nodeCount := nodes.length }

/-- Go `snapshotSwarmServices`: collect the distinct
`com.docker.stack.namespace` label values over all services into a dedup
set, record the service count and add the set size to the stack count. -/
def snapshotSwarmServices (cli : DockerCalls) (s : DockerSnapshot) :
    DockerSnapshot :=
  match cli.serviceListRes with
  | none => s
  | some services =>
    let stackSet := services.foldl
      (fun acc svc => labelStacksFold stackNamespaceLabel acc svc.spec.labels) []
    { s with
      serviceCount := services.length
      stackCount := s.stackCount + stackSet.length }

/-- The first loop of Go `snapshotContainers`: inspect each listed
container; on inspect failure keep the container with no environment,
otherwise attach the inspected environment.  No container is dropped. -/
def buildContainerSnapshots (cli : DockerCalls) (raw : List Container) :
    List DockerContainerSnapshot :=
  raw.map fun c =>
    match cli.containerInspect c.id with
    | none => { container := c, env := [] }
    | some e => { container := c, env := e }

/-- The mutable counters of the second loop of Go `snapshotContainers`. -/
structure ContainerTallies where
  running : Nat
  stopped : Nat
  healthy : Nat
  unhealthy : Nat
  stackSet : List String
deriving Repr, DecidableEq

/-- One iteration of the second loop of Go `snapshotContainers`: the
state if/else-if chain, the health substring else-if chain, and the
compose-project label accumulation. -/
def tallyContainer (acc : ContainerTallies) (c : DockerContainerSnapshot) :
    ContainerTallies :=
  let acc :=
    if c.container.state = "exited" then { acc with stopped := acc.stopped + 1 }
    else if c.container.state = "running" then
      { acc with running := acc.running + 1 }
    else acc
  let acc :=
    if strContains c.container.status "(healthy)" then
      { acc with healthy := acc.healthy + 1 }
    else if strContains c.container.status "(unhealthy)" then
      { acc with unhealthy := acc.unhealthy + 1 }
    else acc
  { acc with
    stackSet := labelStacksFold composeProjectLabel acc.stackSet c.container.labels }

/-- Go `snapshotContainers`: list all containers, resolve environments
best-effort, then tally states, health substrings and compose-project
stackSet, and store the per-container raw list. -/
def snapshotContainers (cli : DockerCalls) (s : DockerSnapshot) :
    DockerSnapshot :=
  match cli.containerListRes with
  | none => s
  | some rawContainers =>
    let containers := buildContainerSnapshots cli rawContainers
    let t := containers.foldl tallyContainer
      { running := 0, stopped := 0, healthy := 0, unhealthy := 0, stackSet := [] }
    { s with
      runningContainerCount := t.running
      stoppedContainerCount := t.stopped
      healthyContainerCount := t.healthy
      unhealthyContainerCount := t.unhealthy
      stackCount := s.stackCount + t.stackSet.length
      snapshotRaw := { s.snapshotRaw with containers := containers } }

/-- Go `snapshotImages`. -/
def snapshotImages (cli : DockerCalls) (s : DockerSnapshot) : DockerSnapshot :=
  match cli.imageListRes with
  | none => s
  | some images =>
    { s with
      imageCount := images.length
      snapshotRaw := { s.snapshotRaw with images := images } }

/-- Go `snapshotVolumes`. -/
def snapshotVolumes (cli : DockerCalls) (s : DockerSnapshot) : DockerSnapshot :=
  match cli.volumeListRes with
  | none => s
  | some volumes =>
    { s with
      volumeCount := volumes.volumes.length
      snapshotRaw := { s.snapshotRaw with volumes := some volumes } }

/-- Go `snapshotNetworks`. -/
def snapshotNetworks (cli : DockerCalls) (s : DockerSnapshot) : DockerSnapshot :=
  match cli.networkListRes with
  | none => s
  | some networks =>
    { s with snapshotRaw := { s.snapshotRaw with networks := networks } }

/-- Go `snapshotVersion`. -/
def snapshotVersion (cli : DockerCalls) (s : DockerSnapshot) : DockerSnapshot :=
  match cli.versionRes with
  | none => s
  | some version =>
    { s with snapshotRaw := { s.snapshotRaw with version := some version } }

/-- Go `CreateSnapshot`: fail fast on client construction or ping, then
run the step pipeline (the swarm steps only when the info-derived swarm
flag is set), ignore every step error, and stamp the capture time.
`none` models the `(nil, err)` return. -/
def createSnapshot (cli : DockerCalls) : Option DockerSnapshot :=
  if cli.newClientOk = false then none
  else if cli.pingOk = false then none
  else
    let s := initialSnapshot
    let s := snapshotInfo cli s
    let s :=
      if s.swarm then snapshotNodes cli (snapshotSwarmServices cli s) else s
    let s := snapshotContainers cli s
    let s := snapshotImages cli s
    let s := snapshotVolumes cli s
    let s := snapshotNetworks cli s
    let s := snapshotVersion cli s
    some { s with time := cli.now }

/-- Spec-side view of the label loop: the values of every label pair whose
key is `key`. -/
def labelValues (key : String) (labels : List (String × String)) :
    List String :=
  labels.filterMap fun kv => if kv.1 = key then some kv.2 else none

/-- Spec-side distinct-value count of a label key over a list of label
sets. -/
def distinctLabelValueCount (key : String)
    (labelLists : List (List (String × String))) : Nat :=
  ((labelLists.flatMap (labelValues key)).dedup).length

/-! Field-preservation helper lemmas: each step only writes the fields the
Go function assigns. -/

@[simp] lemma snapshotInfo_stackCount (cli : DockerCalls) (s : DockerSnapshot) :
    (snapshotInfo cli s).stackCount = s.stackCount := by
  unfold snapshotInfo; split <;> rfl

@[simp] lemma snapshotSwarmServices_totalCPU (cli : DockerCalls) (s : DockerSnapshot) :
    (snapshotSwarmServices cli s).totalCPU = s.totalCPU := by
  unfold snapshotSwarmServices; split <;> rfl

@[simp] lemma snapshotSwarmServices_totalMemory (cli : DockerCalls) (s : DockerSnapshot) :
    (snapshotSwarmServices cli s).totalMemory = s.totalMemory := by
  unfold snapshotSwarmServices; split <;> rfl

@[simp] lemma snapshotSwarmServices_nodeCount (cli : DockerCalls) (s : DockerSnapshot) :
    (snapshotSwarmServices cli s).nodeCount = s.nodeCount := by
  unfold snapshotSwarmServices; split <;> rfl

@[simp] lemma snapshotSwarmServices_snapshotRaw (cli : DockerCalls) (s : DockerSnapshot) :
    (snapshotSwarmServices cli s).snapshotRaw = s.snapshotRaw := by
  unfold snapshotSwarmServices; split <;> rfl

@[simp] lemma snapshotNodes_stackCount (cli : DockerCalls) (s : DockerSnapshot) :
    (snapshotNodes cli s).stackCount = s.stackCount := by
  unfold snapshotNodes; split <;> rfl

@[simp] lemma snapshotNodes_serviceCount (cli : DockerCalls) (s : DockerSnapshot) :
    (snapshotNodes cli s).serviceCount = s.serviceCount := by
  unfold snapshotNodes; split <;> rfl

@[simp] lemma snapshotNodes_snapshotRaw (cli : DockerCalls) (s : DockerSnapshot) :
    (snapshotNodes cli s).snapshotRaw = s.snapshotRaw := by
  unfold snapshotNodes; split <;> rfl

@[simp] lemma snapshotContainers_totalCPU (cli : DockerCalls) (s : DockerSnapshot) :
    (snapshotContainers cli s).totalCPU = s.totalCPU := by
  unfold snapshotContainers; split <;> rfl

@[simp] lemma snapshotContainers_totalMemory (cli : DockerCalls) (s : DockerSnapshot) :
    (snapshotContainers cli s).totalMemory = s.totalMemory := by
  unfold snapshotContainers; split <;> rfl

@[simp] lemma snapshotContainers_nodeCount (cli : DockerCalls) (s : DockerSnapshot) :
    (snapshotContainers cli s).nodeCount = s.nodeCount := by
  unfold snapshotContainers; split <;> rfl

@[simp] lemma snapshotContainers_serviceCount (cli : DockerCalls) (s : DockerSnapshot) :
    (snapshotContainers cli s).serviceCount = s.serviceCount := by
  unfold snapshotContainers; split <;> rfl

@[simp] lemma snapshotContainers_swarm (cli : DockerCalls) (s : DockerSnapshot) :
    (snapshotContainers cli s).swarm = s.swarm := by
  unfold snapshotContainers; split <;> rfl

@[simp] lemma snapshotImages_stackCount (cli : DockerCalls) (s : DockerSnapshot) :
    (snapshotImages cli s).stackCount = s.stackCount := by
  unfold snapshotImages; split <;> rfl

@[simp] lemma snapshotImages_totalCPU (cli : DockerCalls) (s : DockerSnapshot) :
    (snapshotImages cli s).totalCPU = s.totalCPU := by
  unfold snapshotImages; split <;> rfl

@[simp] lemma snapshotImages_totalMemory (cli : DockerCalls) (s : DockerSnapshot) :
    (snapshotImages cli s).totalMemory = s.totalMemory := by
  unfold snapshotImages; split <;> rfl

@[simp] lemma snapshotImages_nodeCount (cli : DockerCalls) (s : DockerSnapshot) :
    (snapshotImages cli s).nodeCount = s.nodeCount := by
  unfold snapshotImages; split <;> rfl

@[simp] lemma snapshotImages_serviceCount (cli : DockerCalls) (s : DockerSnapshot) :
    (snapshotImages cli s).serviceCount = s.serviceCount := by
  unfold snapshotImages; split <;> rfl

@[simp] lemma snapshotImages_swarm (cli : DockerCalls) (s : DockerSnapshot) :
    (snapshotImages cli s).swarm = s.swarm := by
  unfold snapshotImages; split <;> rfl

@[simp] lemma snapshotImages_containersRaw (cli : DockerCalls) (s : DockerSnapshot) :
    (snapshotImages cli s).snapshotRaw.containers = s.snapshotRaw.containers := by
  unfold snapshotImages; split <;> rfl

@[simp] lemma snapshotImages_runningContainerCount (cli : DockerCalls) (s : DockerSnapshot) :
    (snapshotImages cli s).runningContainerCount = s.runningContainerCount := by
  unfold snapshotImages; split <;> rfl

@[simp] lemma snapshotImages_stoppedContainerCount (cli : DockerCalls) (s : DockerSnapshot) :
    (snapshotImages cli s).stoppedContainerCount = s.stoppedContainerCount := by
  unfold snapshotImages; split <;> rfl

@[simp] lemma snapshotImages_healthyContainerCount (cli : DockerCalls) (s : DockerSnapshot) :
    (snapshotImages cli s).healthyContainerCount = s.healthyContainerCount := by
  unfold snapshotImages; split <;> rfl

@[simp] lemma snapshotImages_unhealthyContainerCount (cli : DockerCalls) (s : DockerSnapshot) :
    (snapshotImages cli s).unhealthyContainerCount = s.unhealthyContainerCount := by
  unfold snapshotImages; split <;> rfl

@[simp] lemma snapshotVolumes_stackCount (cli : DockerCalls) (s : DockerSnapshot) :
    (snapshotVolumes cli s).stackCount = s.stackCount := by
  unfold snapshotVolumes; split <;> rfl

@[simp] lemma snapshotVolumes_totalCPU (cli : DockerCalls) (s : DockerSnapshot) :
    (snapshotVolumes cli s).totalCPU = s.totalCPU := by
  unfold snapshotVolumes; split <;> rfl

@[simp] lemma snapshotVolumes_totalMemory (cli : DockerCalls) (s : DockerSnapshot) :
    (snapshotVolumes cli s).totalMemory = s.totalMemory := by
  unfold snapshotVolumes; split <;> rfl

@[simp] lemma snapshotVolumes_nodeCount (cli : DockerCalls) (s : DockerSnapshot) :
    (snapshotVolumes cli s).nodeCount = s.nodeCount := by
  unfold snapshotVolumes; split <;> rfl

@[simp] lemma snapshotVolumes_serviceCount (cli : DockerCalls) (s : DockerSnapshot) :
    (snapshotVolumes cli s).serviceCount = s.serviceCount := by
  unfold snapshotVolumes; split <;> rfl

@[simp] lemma snapshotVolumes_swarm (cli : DockerCalls) (s : DockerSnapshot) :
    (snapshotVolumes cli s).swarm = s.swarm := by
  unfold snapshotVolumes; split <;> rfl

@[simp] lemma snapshotVolumes_imageCount (cli : DockerCalls) (s : DockerSnapshot) :
    (snapshotVolumes cli s).imageCount = s.imageCount := by
  unfold snapshotVolumes; split <;> rfl

@[simp] lemma snapshotVolumes_containersRaw (cli : DockerCalls) (s : DockerSnapshot) :
    (snapshotVolumes cli s).snapshotRaw.containers = s.snapshotRaw.containers := by
  unfold snapshotVolumes; split <;> rfl

@[simp] lemma snapshotVolumes_runningContainerCount (cli : DockerCalls) (s : DockerSnapshot) :
    (snapshotVolumes cli s).runningContainerCount = s.runningContainerCount := by
  unfold snapshotVolumes; split <;> rfl

@[simp] lemma snapshotVolumes_stoppedContainerCount (cli : DockerCalls) (s : DockerSnapshot) :
    (snapshotVolumes cli s).stoppedContainerCount = s.stoppedContainerCount := by
  unfold snapshotVolumes; split <;> rfl

@[simp] lemma snapshotVolumes_healthyContainerCount (cli : DockerCalls) (s : DockerSnapshot) :
    (snapshotVolumes cli s).healthyContainerCount = s.healthyContainerCount := by
  unfold snapshotVolumes; split <;> rfl

@[simp] lemma snapshotVolumes_unhealthyContainerCount (cli : DockerCalls) (s : DockerSnapshot) :
    (snapshotVolumes cli s).unhealthyContainerCount = s.unhealthyContainerCount := by
  unfold snapshotVolumes; split <;> rfl

@[simp] lemma snapshotNetworks_stackCount (cli : DockerCalls) (s : DockerSnapshot) :
    (snapshotNetworks cli s).stackCount = s.stackCount := by
  unfold snapshotNetworks; split <;> rfl

@[simp] lemma snapshotNetworks_totalCPU (cli : DockerCalls) (s : DockerSnapshot) :
    (snapshotNetworks cli s).totalCPU = s.totalCPU := by
  unfold snapshotNetworks; split <;> rfl

@[simp] lemma snapshotNetworks_totalMemory (cli : DockerCalls) (s : DockerSnapshot) :
    (snapshotNetworks cli s).totalMemory = s.totalMemory := by
  unfold snapshotNetworks; split <;> rfl

@[simp] lemma snapshotNetworks_nodeCount (cli : DockerCalls) (s : DockerSnapshot) :
    (snapshotNetworks cli s).nodeCount = s.nodeCount := by
  unfold snapshotNetworks; split <;> rfl

@[simp] lemma snapshotNetworks_serviceCount (cli : DockerCalls) (s : DockerSnapshot) :
    (snapshotNetworks cli s).serviceCount = s.serviceCount := by
  unfold snapshotNetworks; split <;> rfl

@[simp] lemma snapshotNetworks_swarm (cli : DockerCalls) (s : DockerSnapshot) :
    (snapshotNetworks cli s).swarm = s.swarm := by
  unfold snapshotNetworks; split <;> rfl

@[simp] lemma snapshotNetworks_imageCount (cli : DockerCalls) (s : DockerSnapshot) :
    (snapshotNetworks cli s).imageCount = s.imageCount := by
  unfold snapshotNetworks; split <;> rfl

@[simp] lemma snapshotNetworks_volumeCount (cli : DockerCalls) (s : DockerSnapshot) :
    (snapshotNetworks cli s).volumeCount = s.volumeCount := by
  unfold snapshotNetworks; split <;> rfl

@[simp] lemma snapshotNetworks_containersRaw (cli : DockerCalls) (s : DockerSnapshot) :
    (snapshotNetworks cli s).snapshotRaw.containers = s.snapshotRaw.containers := by
  unfold snapshotNetworks; split <;> rfl

@[simp] lemma snapshotNetworks_runningContainerCount (cli : DockerCalls) (s : DockerSnapshot) :
    (snapshotNetworks cli s).runningContainerCount = s.runningContainerCount := by
  unfold snapshotNetworks; split <;> rfl

@[simp] lemma snapshotNetworks_stoppedContainerCount (cli : DockerCalls) (s : DockerSnapshot) :
    (snapshotNetworks cli s).stoppedContainerCount = s.stoppedContainerCount := by
  unfold snapshotNetworks; split <;> rfl

@[simp] lemma snapshotNetworks_healthyContainerCount (cli : DockerCalls) (s : DockerSnapshot) :
    (snapshotNetworks cli s).healthyContainerCount = s.healthyContainerCount := by
  unfold snapshotNetworks; split <;> rfl

@[simp] lemma snapshotNetworks_unhealthyContainerCount (cli : DockerCalls) (s : DockerSnapshot) :
    (snapshotNetworks cli s).unhealthyContainerCount = s.unhealthyContainerCount := by
  unfold snapshotNetworks; split <;> rfl

@[simp] lemma snapshotVersion_stackCount (cli : DockerCalls) (s : DockerSnapshot) :
    (snapshotVersion cli s).stackCount = s.stackCount := by
  unfold snapshotVersion; split <;> rfl

@[simp] lemma snapshotVersion_totalCPU (cli : DockerCalls) (s : DockerSnapshot) :
    (snapshotVersion cli s).totalCPU = s.totalCPU := by
  unfold snapshotVersion; split <;> rfl

@[simp] lemma snapshotVersion_totalMemory (cli : DockerCalls) (s : DockerSnapshot) :
    (snapshotVersion cli s).totalMemory = s.totalMemory := by
  unfold snapshotVersion; split <;> rfl

@[simp] lemma snapshotVersion_nodeCount (cli : DockerCalls) (s : DockerSnapshot) :
    (snapshotVersion cli s).nodeCount = s.nodeCount := by
  unfold snapshotVersion; split <;> rfl

@[simp] lemma snapshotVersion_serviceCount (cli : DockerCalls) (s : DockerSnapshot) :
    (snapshotVersion cli s).serviceCount = s.serviceCount := by
  unfold snapshotVersion; split <;> rfl

@[simp] lemma snapshotVersion_swarm (cli : DockerCalls) (s : DockerSnapshot) :
    (snapshotVersion cli s).swarm = s.swarm := by
  unfold snapshotVersion; split <;> rfl

@[simp] lemma snapshotVersion_imageCount (cli : DockerCalls) (s : DockerSnapshot) :
    (snapshotVersion cli s).imageCount = s.imageCount := by
  unfold snapshotVersion; split <;> rfl

@[simp] lemma snapshotVersion_volumeCount (cli : DockerCalls) (s : DockerSnapshot) :
    (snapshotVersion cli s).volumeCount = s.volumeCount := by
  unfold snapshotVersion; split <;> rfl

@[simp] lemma snapshotVersion_containersRaw (cli : DockerCalls) (s : DockerSnapshot) :
    (snapshotVersion cli s).snapshotRaw.containers = s.snapshotRaw.containers := by
  unfold snapshotVersion; split <;> rfl

@[simp] lemma snapshotVersion_networksRaw (cli : DockerCalls) (s : DockerSnapshot) :
    (snapshotVersion cli s).snapshotRaw.networks = s.snapshotRaw.networks := by
  unfold snapshotVersion; split <;> rfl

@[simp] lemma snapshotVersion_runningContainerCount (cli : DockerCalls) (s : DockerSnapshot) :
    (snapshotVersion cli s).runningContainerCount = s.runningContainerCount := by
  unfold snapshotVersion; split <;> rfl

@[simp] lemma snapshotVersion_stoppedContainerCount (cli : DockerCalls) (s : DockerSnapshot) :
    (snapshotVersion cli s).stoppedContainerCount = s.stoppedContainerCount := by
  unfold snapshotVersion; split <;> rfl

@[simp] lemma snapshotVersion_healthyContainerCount (cli : DockerCalls) (s : DockerSnapshot) :
    (snapshotVersion cli s).healthyContainerCount = s.healthyContainerCount := by
  unfold snapshotVersion; split <;> rfl

@[simp] lemma snapshotVersion_unhealthyContainerCount (cli : DockerCalls) (s : DockerSnapshot) :
    (snapshotVersion cli s).unhealthyContainerCount = s.unhealthyContainerCount := by
  unfold snapshotVersion; split <;> rfl


/-! Characterization of the tally loop. -/

lemma tallyContainer_running (a : ContainerTallies) (c : DockerContainerSnapshot) :
    (tallyContainer a c).running =
      a.running + if c.container.state = "running" then 1 else 0 := by
  unfold tallyContainer
  by_cases hex : c.container.state = "exited" <;>
    by_cases hr : c.container.state = "running" <;>
    by_cases hh : strContains c.container.status "(healthy)" <;>
    by_cases hu : strContains c.container.status "(unhealthy)" <;>
    simp [hex, hr, hh, hu]

lemma tallyContainer_stopped (a : ContainerTallies) (c : DockerContainerSnapshot) :
    (tallyContainer a c).stopped =
      a.stopped + if c.container.state = "exited" then 1 else 0 := by
  unfold tallyContainer
  by_cases hex : c.container.state = "exited" <;>
    by_cases hr : c.container.state = "running" <;>
    by_cases hh : strContains c.container.status "(healthy)" <;>
    by_cases hu : strContains c.container.status "(unhealthy)" <;>
    simp [hex, hr, hh, hu]

lemma tallyContainer_healthy (a : ContainerTallies) (c : DockerContainerSnapshot) :
    (tallyContainer a c).healthy =
      a.healthy +
        if strContains c.container.status "(healthy)" then 1 else 0 := by
  unfold tallyContainer
  by_cases hex : c.container.state = "exited" <;>
    by_cases hr : c.container.state = "running" <;>
    by_cases hh : strContains c.container.status "(healthy)" <;>
    by_cases hu : strContains c.container.status "(unhealthy)" <;>
    simp [hex, hr, hh, hu]

lemma tallyContainer_unhealthy (a : ContainerTallies) (c : DockerContainerSnapshot) :
    (tallyContainer a c).unhealthy =
      a.unhealthy +
        if strContains c.container.status "(unhealthy)"
            ∧ ¬ strContains c.container.status "(healthy)" then 1 else 0 := by
  unfold tallyContainer
  by_cases hex : c.container.state = "exited" <;>
    by_cases hr : c.container.state = "running" <;>
    by_cases hh : strContains c.container.status "(healthy)" <;>
    by_cases hu : strContains c.container.status "(unhealthy)" <;>
    simp [hex, hr, hh, hu]

lemma tallyContainer_stackSet (a : ContainerTallies) (c : DockerContainerSnapshot) :
    (tallyContainer a c).stackSet =
      labelStacksFold composeProjectLabel a.stackSet c.container.labels := by
  unfold tallyContainer
  by_cases hex : c.container.state = "exited" <;>
    by_cases hr : c.container.state = "running" <;>
    by_cases hh : strContains c.container.status "(healthy)" <;>
    by_cases hu : strContains c.container.status "(unhealthy)" <;>
    simp [hex, hr, hh, hu]


/-! Fold-level characterization of the tally loop. -/

lemma foldl_tally_running (l : List DockerContainerSnapshot) (a : ContainerTallies) :
    (l.foldl tallyContainer a).running =
      a.running + l.countP (fun c => decide (c.container.state = "running")) := by
  induction l generalizing a with
  | nil => simp
  | cons c l ih =>
    rw [List.foldl_cons, ih, tallyContainer_running, List.countP_cons]
    simp only [decide_eq_true_eq]
    split <;> omega

lemma foldl_tally_stopped (l : List DockerContainerSnapshot) (a : ContainerTallies) :
    (l.foldl tallyContainer a).stopped =
      a.stopped + l.countP (fun c => decide (c.container.state = "exited")) := by
  induction l generalizing a with
  | nil => simp
  | cons c l ih =>
    rw [List.foldl_cons, ih, tallyContainer_stopped, List.countP_cons]
    simp only [decide_eq_true_eq]
    split <;> omega

lemma foldl_tally_healthy (l : List DockerContainerSnapshot) (a : ContainerTallies) :
    (l.foldl tallyContainer a).healthy =
      a.healthy + l.countP (fun c => strContains c.container.status "(healthy)") := by
  induction l generalizing a with
  | nil => simp
  | cons c l ih =>
    rw [List.foldl_cons, ih, tallyContainer_healthy, List.countP_cons]
    by_cases hh : strContains c.container.status "(healthy)" <;>
      simp [hh]
    all_goals omega

lemma foldl_tally_unhealthy (l : List DockerContainerSnapshot) (a : ContainerTallies) :
    (l.foldl tallyContainer a).unhealthy =
      a.unhealthy + l.countP (fun c =>
        strContains c.container.status "(unhealthy)"
          && !(strContains c.container.status "(healthy)")) := by
  induction l generalizing a with
  | nil => simp
  | cons c l ih =>
    rw [List.foldl_cons, ih, tallyContainer_unhealthy, List.countP_cons]
    by_cases hu : strContains c.container.status "(unhealthy)" <;>
      by_cases hh : strContains c.container.status "(healthy)" <;>
      simp [hu, hh]
    all_goals omega

lemma foldl_tally_stackSet (l : List DockerContainerSnapshot) (a : ContainerTallies) :
    (l.foldl tallyContainer a).stackSet =
      l.foldl (fun st c => labelStacksFold composeProjectLabel st c.container.labels)
        a.stackSet := by
  induction l generalizing a with
  | nil => rfl
  | cons c l ih => rw [List.foldl_cons, ih, tallyContainer_stackSet, List.foldl_cons]

/-! The dedup set (Go map) computes distinct label values. -/

lemma stackSetInsert_toFinset (l : List String) (v : String) :
    (stackSetInsert l v).toFinset = insert v l.toFinset := by
  unfold stackSetInsert
  split
  · rw [Finset.insert_eq_self.mpr (by simp_all)]
  · simp

lemma stackSetInsert_nodup (l : List String) (v : String) (h : l.Nodup) :
    (stackSetInsert l v).Nodup := by
  unfold stackSetInsert
  split
  · exact h
  · exact List.nodup_cons.mpr ⟨by assumption, h⟩

lemma labelStacksFold_cons (key : String) (acc : List String)
    (kv : String × String) (ls : List (String × String)) :
    labelStacksFold key acc (kv :: ls) =
      labelStacksFold key (if kv.1 = key then stackSetInsert acc kv.2 else acc) ls :=
  rfl

lemma labelValues_cons (key : String) (kv : String × String)
    (ls : List (String × String)) :
    labelValues key (kv :: ls) =
      if kv.1 = key then kv.2 :: labelValues key ls else labelValues key ls := by
  unfold labelValues
  rw [List.filterMap_cons]
  split <;> simp_all

lemma labelStacksFold_toFinset (key : String) (labels : List (String × String))
    (acc : List String) :
    (labelStacksFold key acc labels).toFinset =
      acc.toFinset ∪ (labelValues key labels).toFinset := by
  induction labels generalizing acc with
  | nil => simp [labelStacksFold, labelValues]
  | cons kv ls ih =>
    rw [labelStacksFold_cons, labelValues_cons]
    by_cases hk : kv.1 = key
    · rw [if_pos hk, if_pos hk, ih, stackSetInsert_toFinset]
      ext x
      simp only [Finset.mem_union, Finset.mem_insert, List.mem_toFinset,
        List.mem_cons]
      tauto
    · rw [if_neg hk, if_neg hk, ih]

lemma labelStacksFold_nodup (key : String) (labels : List (String × String))
    (acc : List String) (h : acc.Nodup) :
    (labelStacksFold key acc labels).Nodup := by
  induction labels generalizing acc with
  | nil => exact h
  | cons kv ls ih =>
    rw [labelStacksFold_cons]
    apply ih
    split
    · exact stackSetInsert_nodup _ _ h
    · exact h

lemma foldl_labelStacksFold_toFinset {α : Type} (key : String)
    (f : α → List (String × String)) (l : List α) (acc : List String) :
    (l.foldl (fun a x => labelStacksFold key a (f x)) acc).toFinset =
      acc.toFinset ∪ ((l.map f).flatMap (labelValues key)).toFinset := by
  induction l generalizing acc with
  | nil => simp
  | cons x l ih =>
    rw [List.foldl_cons, ih, labelStacksFold_toFinset]
    ext y
    simp only [Finset.mem_union, List.mem_toFinset, List.map_cons,
      List.flatMap_cons, List.mem_append]
    tauto

lemma foldl_labelStacksFold_nodup {α : Type} (key : String)
    (f : α → List (String × String)) (l : List α) (acc : List String)
    (h : acc.Nodup) :
    (l.foldl (fun a x => labelStacksFold key a (f x)) acc).Nodup := by
  induction l generalizing acc with
  | nil => exact h
  | cons x l ih => exact ih _ (labelStacksFold_nodup _ _ _ h)

lemma foldl_labelStacksFold_length {α : Type} (key : String)
    (f : α → List (String × String)) (l : List α) :
    (l.foldl (fun a x => labelStacksFold key a (f x)) []).length =
      distinctLabelValueCount key (l.map f) := by
  have hnd := foldl_labelStacksFold_nodup key f l [] List.nodup_nil
  have hfs := foldl_labelStacksFold_toFinset key f l []
  rw [distinctLabelValueCount, ← List.card_toFinset,
    ← List.toFinset_card_of_nodup hnd, hfs]
  simp


/-! The inspect loop never drops a container. -/

lemma buildContainerSnapshots_map_container (cli : DockerCalls)
    (raw : List Container) :
    (buildContainerSnapshots cli raw).map (fun c => c.container) = raw := by
  induction raw with
  | nil => rfl
  | cons c l ih =>
    unfold buildContainerSnapshots at ih ⊢
    rw [List.map_cons]
    cases cli.containerInspect c.id <;> simp [ih]

lemma buildContainerSnapshots_countP (cli : DockerCalls) (raw : List Container)
    (p : Container → Bool) :
    (buildContainerSnapshots cli raw).countP (fun c => p c.container) =
      raw.countP p := by
  conv_rhs => rw [← buildContainerSnapshots_map_container cli raw]
  rw [List.countP_map]
  rfl

lemma buildContainerSnapshots_stacks (cli : DockerCalls) (raw : List Container)
    (st0 : List String) :
    (buildContainerSnapshots cli raw).foldl
        (fun st c => labelStacksFold composeProjectLabel st c.container.labels)
        st0 =
      raw.foldl (fun st c => labelStacksFold composeProjectLabel st c.labels)
        st0 := by
  conv_rhs => rw [← buildContainerSnapshots_map_container cli raw]
  rw [List.foldl_map]

/-! What each step computes when its engine call succeeds. -/

lemma snapshotContainers_some (cli : DockerCalls) (s : DockerSnapshot)
    (conts : List Container) (h : cli.containerListRes = some conts) :
    snapshotContainers cli s =
      { s with
        runningContainerCount :=
          conts.countP (fun c => decide (c.state = "running"))
        stoppedContainerCount :=
          conts.countP (fun c => decide (c.state = "exited"))
        healthyContainerCount :=
          conts.countP (fun c => strContains c.status "(healthy)")
        unhealthyContainerCount :=
          conts.countP (fun c =>
            strContains c.status "(unhealthy)"
              && !(strContains c.status "(healthy)"))
        stackCount := s.stackCount +
          distinctLabelValueCount composeProjectLabel
            (conts.map (fun c => c.labels))
        snapshotRaw :=
          { s.snapshotRaw with
            containers := buildContainerSnapshots cli conts } } := by
  unfold snapshotContainers
  rw [h]
  simp only []
  rw [foldl_tally_running, foldl_tally_stopped, foldl_tally_healthy,
    foldl_tally_unhealthy, foldl_tally_stackSet]
  rw [buildContainerSnapshots_countP cli conts
      (fun c => decide (c.state = "running")),
    buildContainerSnapshots_countP cli conts
      (fun c => decide (c.state = "exited")),
    buildContainerSnapshots_countP cli conts
      (fun c => strContains c.status "(healthy)"),
    buildContainerSnapshots_countP cli conts
      (fun c => strContains c.status "(unhealthy)"
        && !(strContains c.status "(healthy)"))]
  rw [buildContainerSnapshots_stacks]
  rw [foldl_labelStacksFold_length composeProjectLabel
    (fun c : Container => c.labels) conts]
  simp

lemma snapshotSwarmServices_some (cli : DockerCalls) (s : DockerSnapshot)
    (services : List Service) (h : cli.serviceListRes = some services) :
    snapshotSwarmServices cli s =
      { s with
        serviceCount := services.length
        stackCount := s.stackCount +
          distinctLabelValueCount stackNamespaceLabel
            (services.map (fun svc => svc.spec.labels)) } := by
  unfold snapshotSwarmServices
  rw [h]
  simp only []
  congr 1
  rw [foldl_labelStacksFold_length stackNamespaceLabel
    (fun svc : Service => svc.spec.labels) services]

lemma nodes_resources_foldl (nodes : List Node) (p : Int × Int) :
    nodes.foldl
        (fun (p : Int × Int) node =>
          (wrapInt64 (p.1 + node.description.resources.nanoCPUs),
           wrapInt64 (p.2 + node.description.resources.memoryBytes))) p =
      ((nodes.map (fun n : Node => n.description.resources.nanoCPUs)).foldl
          (fun a x => wrapInt64 (a + x)) p.1,
       (nodes.map (fun n : Node => n.description.resources.memoryBytes)).foldl
          (fun a x => wrapInt64 (a + x)) p.2) := by
  induction nodes generalizing p with
  | nil => simp
  | cons n l ih =>
    rw [List.foldl_cons, ih]
    simp

lemma snapshotNodes_some (cli : DockerCalls) (s : DockerSnapshot)
    (nodes : List Node) (h : cli.nodeListRes = some nodes) :
    snapshotNodes cli s =
      { s with
        totalCPU :=
          (int64Sum (nodes.map
            (fun n : Node => n.description.resources.nanoCPUs))).tdiv
            1000000000
        totalMemory :=
          int64Sum (nodes.map
            (fun n : Node => n.description.resources.memoryBytes))
        nodeCount := nodes.length } := by
  unfold snapshotNodes int64Sum
  rw [h]
  simp only [nodes_resources_foldl]

lemma wrapInt64_eq_self (x : Int) (h : inInt64Range x) : wrapInt64 x = x := by
  unfold wrapInt64
  unfold inInt64Range at h
  have h0 : (0 : Int) ≤ x + 2 ^ 63 := by omega
  have h1 : x + 2 ^ 63 < 2 ^ 64 := by omega
  rw [Int.emod_eq_of_lt h0 h1]
  omega

lemma int64Sum_eq_sum_aux (l : List Int) (a : Int)
    (h : ∀ i, i ≤ l.length → inInt64Range (a + (l.take i).sum)) :
    l.foldl (fun a x => wrapInt64 (a + x)) a = a + l.sum := by
  induction l generalizing a with
  | nil => simp
  | cons x xs ih =>
    rw [List.foldl_cons]
    have hx : inInt64Range (a + x) := by
      have h1 := h 1 (by simp)
      simpa using h1
    rw [wrapInt64_eq_self _ hx, ih (a + x) ?_]
    · rw [List.sum_cons]
      ring
    · intro i hi
      have hsucc := h (i + 1) (by simpa using Nat.succ_le_succ hi)
      rw [List.take_succ_cons, List.sum_cons] at hsucc
      have harr : a + (x + (xs.take i).sum) = a + x + (xs.take i).sum := by
        ring
      rw [harr] at hsucc
      exact hsucc

/-- When no intermediate accumulation leaves the `int64` range, the
wrapping sum is the plain sum. -/
lemma int64Sum_eq_sum (l : List Int)
    (h : ∀ i, i ≤ l.length → inInt64Range ((l.take i).sum)) :
    int64Sum l = l.sum := by
  unfold int64Sum
  have haux := int64Sum_eq_sum_aux l 0 (by simpa using h)
  simpa using haux

/-! Each step only reads its own call results. -/

lemma snapshotContainers_congr (cli cli' : DockerCalls)
    (h1 : cli'.containerListRes = cli.containerListRes)
    (h2 : cli'.containerInspect = cli.containerInspect) (s : DockerSnapshot) :
    snapshotContainers cli' s = snapshotContainers cli s := by
  unfold snapshotContainers buildContainerSnapshots
  rw [h1, h2]

lemma snapshotImages_congr (cli cli' : DockerCalls)
    (h : cli'.imageListRes = cli.imageListRes) (s : DockerSnapshot) :
    snapshotImages cli' s = snapshotImages cli s := by
  unfold snapshotImages
  rw [h]

lemma snapshotVolumes_congr (cli cli' : DockerCalls)
    (h : cli'.volumeListRes = cli.volumeListRes) (s : DockerSnapshot) :
    snapshotVolumes cli' s = snapshotVolumes cli s := by
  unfold snapshotVolumes
  rw [h]

lemma snapshotNetworks_congr (cli cli' : DockerCalls)
    (h : cli'.networkListRes = cli.networkListRes) (s : DockerSnapshot) :
    snapshotNetworks cli' s = snapshotNetworks cli s := by
  unfold snapshotNetworks
  rw [h]

lemma snapshotVersion_congr (cli cli' : DockerCalls)
    (h : cli'.versionRes = cli.versionRes) (s : DockerSnapshot) :
    snapshotVersion cli' s = snapshotVersion cli s := by
  unfold snapshotVersion
  rw [h]

lemma snapshotInfo_congr (cli cli' : DockerCalls)
    (h : cli'.infoRes = cli.infoRes) (s : DockerSnapshot) :
    snapshotInfo cli' s = snapshotInfo cli s := by
  unfold snapshotInfo
  rw [h]


@[simp] lemma snapshotInfo_nodeCount (cli : DockerCalls) (s : DockerSnapshot) :
    (snapshotInfo cli s).nodeCount = s.nodeCount := by
  unfold snapshotInfo; split <;> rfl

@[simp] lemma snapshotInfo_serviceCount (cli : DockerCalls) (s : DockerSnapshot) :
    (snapshotInfo cli s).serviceCount = s.serviceCount := by
  unfold snapshotInfo; split <;> rfl

lemma buildContainerSnapshots_mem_failed (cli : DockerCalls)
    (raw : List Container) (c : Container) (hc : c ∈ raw)
    (hf : cli.containerInspect c.id = none) :
    ({ container := c, env := [] } : DockerContainerSnapshot) ∈
      buildContainerSnapshots cli raw := by
  unfold buildContainerSnapshots
  refine List.mem_map.mpr ⟨c, hc, ?_⟩
  rw [hf]

/-- When client construction and ping succeed, `createSnapshot` is the
step pipeline stamped with the capture time. -/
lemma createSnapshot_ok (cli : DockerCalls) (hc : cli.newClientOk = true)
    (hp : cli.pingOk = true) :
    createSnapshot cli =
      some { snapshotVersion cli (snapshotNetworks cli (snapshotVolumes cli
        (snapshotImages cli (snapshotContainers cli
          (if (snapshotInfo cli initialSnapshot).swarm then
            snapshotNodes cli
              (snapshotSwarmServices cli (snapshotInfo cli initialSnapshot))
          else snapshotInfo cli initialSnapshot))))) with time := cli.now } := by
  unfold createSnapshot
  rw [hc, hp]
  simp only [if_neg (by decide : ¬(true = false))]


lemma countP_add_of_disjoint {α : Type} (p q : α → Bool) (l : List α)
    (hd : ∀ a ∈ l, ¬(p a = true ∧ q a = true)) :
    l.countP p + l.countP q = l.countP (fun a => p a || q a) := by
  induction l with
  | nil => rfl
  | cons a l ih =>
    have ha := hd a (List.mem_cons_self a l)
    have ih' := ih fun b hb => hd b (List.mem_cons_of_mem a hb)
    rw [List.countP_cons, List.countP_cons, List.countP_cons]
    by_cases hp : p a <;> by_cases hq : q a <;> simp_all <;> omega

/-! Concrete example inputs used by the witnesses. -/

/-- A run in which the client and ping succeed but every listing call
fails. -/
def exampleCallsAllFail : DockerCalls :=
  { newClientOk := true, pingOk := true, infoRes := none,
    serviceListRes := none, nodeListRes := none, containerListRes := none,
    containerInspect := fun _ => none, imageListRes := none,
    volumeListRes := none, networkListRes := none, versionRes := none,
    now := 1700000000 }

/-- The five-container scenario: three running (one healthy), two
exited. -/
def scenarioContainers : List Container :=
  [{ id := "c1", state := "running", status := "Up 5 minutes (healthy)",
     labels := [] },
   { id := "c2", state := "running", status := "Up 3 minutes", labels := [] },
   { id := "c3", state := "running", status := "Up 1 minute", labels := [] },
   { id := "c4", state := "exited", status := "Exited (0) 2 hours ago",
     labels := [] },
   { id := "c5", state := "exited", status := "Exited (1) 1 hour ago",
     labels := [] }]

/-- The scenario run: container listing succeeds, every inspect fails. -/
def scenarioCalls : DockerCalls :=
  { exampleCallsAllFail with containerListRes := some scenarioContainers }

/-- The same scenario run but with every inspect call succeeding. -/
def scenarioCallsInspectOk : DockerCalls :=
  { scenarioCalls with containerInspect := fun _ => some ["A=1"] }

/-- A container whose status text contains both health markers. -/
def bothHealthContainer : Container :=
  { id := "b", state := "running",
    status := "Up 9 minutes (healthy) (unhealthy)", labels := [] }

/-- A run listing only `bothHealthContainer`. -/
def bothHealthCalls : DockerCalls :=
  { exampleCallsAllFail with containerListRes := some [bothHealthContainer] }

/-- Claim C1: `CreateSnapshot` returns an error exactly when client
construction or the ping liveness check fails; when both succeed it
returns a snapshot even if every subsequent listing call fails, with all
derived fields at their zero values and only the capture timestamp set. -/
theorem claim_C1 (cli : DockerCalls) :
    (createSnapshot cli = none ↔
      (cli.newClientOk = false ∨ cli.pingOk = false)) ∧
    (cli.newClientOk = true → cli.pingOk = true → cli.infoRes = none →
      cli.serviceListRes = none → cli.nodeListRes = none →
      cli.containerListRes = none → cli.imageListRes = none →
      cli.volumeListRes = none → cli.networkListRes = none →
      cli.versionRes = none →
      createSnapshot cli = some { initialSnapshot with time := cli.now }) := by
  constructor
  · by_cases h1 : cli.newClientOk <;> by_cases h2 : cli.pingOk <;>
      simp [createSnapshot, h1, h2]
  · intro h1 h2 hi hs hn hc him hv hnet hver
    simp [createSnapshot, h1, h2, snapshotInfo, hi, initialSnapshot,
      snapshotContainers, hc, snapshotImages, him, snapshotVolumes, hv,
      snapshotNetworks, hnet, snapshotVersion, hver]

/-- Witness for C1 at a concrete all-listings-fail run. -/
theorem claim_C1_witness :
    createSnapshot exampleCallsAllFail =
      some { initialSnapshot with time := 1700000000 } :=
  (claim_C1 exampleCallsAllFail).2 rfl rfl rfl rfl rfl rfl rfl rfl rfl rfl

/-- Claim C3 counterexample: the health checks are an if/else-if chain, so
a container whose status contains "(unhealthy)" but also "(healthy)" does
not increment the unhealthy count, contradicting the claim as stated. -/
theorem claim_C3_counterexample :
    strContains bothHealthContainer.status "(unhealthy)" = true ∧
    (snapshotContainers bothHealthCalls initialSnapshot).unhealthyContainerCount
      = 0 := by
  decide

/-- Claim C3 (amended): a container whose status contains "(healthy)"
increments the healthy count; a container whose status contains
"(unhealthy)" increments the unhealthy count only when the status does not
also contain "(healthy)" (the two checks form an if/else-if chain); both
counts are functions of the status text alone, independent of the
lifecycle state, and a container may match neither. -/
theorem claim_C3 (cli : DockerCalls) (s : DockerSnapshot)
    (conts : List Container) (h : cli.containerListRes = some conts) :
    (snapshotContainers cli s).healthyContainerCount =
      conts.countP (fun c => strContains c.status "(healthy)") ∧
    (snapshotContainers cli s).unhealthyContainerCount =
      conts.countP (fun c =>
        strContains c.status "(unhealthy)"
          && !(strContains c.status "(healthy)")) := by
  rw [snapshotContainers_some cli s conts h]
  exact ⟨rfl, rfl⟩

/-- Witness for the amended C3 at the two-marker container. -/
theorem claim_C3_witness :
    (snapshotContainers bothHealthCalls initialSnapshot).healthyContainerCount =
      [bothHealthContainer].countP
        (fun c => strContains c.status "(healthy)") ∧
    (snapshotContainers bothHealthCalls initialSnapshot).unhealthyContainerCount =
      [bothHealthContainer].countP (fun c =>
        strContains c.status "(unhealthy)"
          && !(strContains c.status "(healthy)")) :=
  claim_C3 bothHealthCalls initialSnapshot [bothHealthContainer] rfl

/-- Claim C4: exactly "exited" increments the stopped count and exactly
"running" increments the running count, every other state neither; and on
the five-container scenario the counts are running=3, stopped=2,
healthy=1, unhealthy=0. -/
theorem claim_C4 (cli : DockerCalls) (s : DockerSnapshot)
    (conts : List Container) (h : cli.containerListRes = some conts) :
    ((snapshotContainers cli s).runningContainerCount =
        conts.countP (fun c => decide (c.state = "running")) ∧
      (snapshotContainers cli s).stoppedContainerCount =
        conts.countP (fun c => decide (c.state = "exited"))) ∧
    ((snapshotContainers scenarioCalls initialSnapshot).runningContainerCount
        = 3 ∧
      (snapshotContainers scenarioCalls initialSnapshot).stoppedContainerCount
        = 2 ∧
      (snapshotContainers scenarioCalls initialSnapshot).healthyContainerCount
        = 1 ∧
      (snapshotContainers scenarioCalls initialSnapshot).unhealthyContainerCount
        = 0) := by
  constructor
  · rw [snapshotContainers_some cli s conts h]
    exact ⟨rfl, rfl⟩
  · decide

/-- Witness for C4 at the five-container scenario. -/
theorem claim_C4_witness :
    (((snapshotContainers scenarioCalls initialSnapshot).runningContainerCount =
        scenarioContainers.countP (fun c => decide (c.state = "running")) ∧
      (snapshotContainers scenarioCalls initialSnapshot).stoppedContainerCount =
        scenarioContainers.countP (fun c => decide (c.state = "exited"))) ∧
    ((snapshotContainers scenarioCalls initialSnapshot).runningContainerCount
        = 3 ∧
      (snapshotContainers scenarioCalls initialSnapshot).stoppedContainerCount
        = 2 ∧
      (snapshotContainers scenarioCalls initialSnapshot).healthyContainerCount
        = 1 ∧
      (snapshotContainers scenarioCalls initialSnapshot).unhealthyContainerCount
        = 0)) :=
  claim_C4 scenarioCalls initialSnapshot scenarioContainers rfl

/-- Claim C7: running + stopped is at most the number of listed
containers, with equality exactly when every container's state is
"running" or "exited". -/
theorem claim_C7 (cli : DockerCalls) (s : DockerSnapshot)
    (conts : List Container) (h : cli.containerListRes = some conts) :
    (snapshotContainers cli s).runningContainerCount +
        (snapshotContainers cli s).stoppedContainerCount ≤ conts.length ∧
    ((snapshotContainers cli s).runningContainerCount +
          (snapshotContainers cli s).stoppedContainerCount = conts.length ↔
      ∀ c ∈ conts, c.state = "running" ∨ c.state = "exited") := by
  rw [snapshotContainers_some cli s conts h]
  show conts.countP _ + conts.countP _ ≤ _ ∧ _
  have hd : ∀ c ∈ conts,
      ¬(decide (c.state = "running") = true ∧
        decide (c.state = "exited") = true) := by
    intro c _ hcontr
    simp only [decide_eq_true_eq] at hcontr
    rw [hcontr.1] at hcontr
    exact absurd hcontr.2 (by decide)
  rw [countP_add_of_disjoint _ _ _ hd]
  constructor
  · exact List.countP_le_length _
  · rw [List.countP_eq_length]
    constructor
    · intro hall c hcm
      have hcc := hall c hcm
      simp only [Bool.or_eq_true, decide_eq_true_eq] at hcc
      exact hcc
    · intro hall c hcm
      simp only [Bool.or_eq_true, decide_eq_true_eq]
      exact hall c hcm

/-- Witness for C7 at the five-container scenario, where equality holds. -/
theorem claim_C7_witness :
    (snapshotContainers scenarioCalls initialSnapshot).runningContainerCount +
        (snapshotContainers scenarioCalls initialSnapshot).stoppedContainerCount
        ≤ scenarioContainers.length ∧
    ((snapshotContainers scenarioCalls initialSnapshot).runningContainerCount +
          (snapshotContainers scenarioCalls initialSnapshot).stoppedContainerCount
          = scenarioContainers.length ↔
      ∀ c ∈ scenarioContainers,
        c.state = "running" ∨ c.state = "exited") :=
  claim_C7 scenarioCalls initialSnapshot scenarioContainers rfl

/-- Claim C8: a container whose inspect call fails still appears in the
raw per-container list (the raw list projects back to the listed
containers unchanged), with an empty environment, and every derived count
is computed from the list-call data alone. -/
theorem claim_C8 (cli : DockerCalls) (s : DockerSnapshot)
    (conts : List Container) (h : cli.containerListRes = some conts) :
    ((snapshotContainers cli s).snapshotRaw.containers.map
        (fun cs => cs.container) = conts) ∧
    (∀ c ∈ conts, cli.containerInspect c.id = none →
      ({ container := c, env := [] } : DockerContainerSnapshot) ∈
        (snapshotContainers cli s).snapshotRaw.containers) ∧
    (snapshotContainers cli s).runningContainerCount =
      conts.countP (fun c => decide (c.state = "running")) ∧
    (snapshotContainers cli s).stoppedContainerCount =
      conts.countP (fun c => decide (c.state = "exited")) ∧
    (snapshotContainers cli s).healthyContainerCount =
      conts.countP (fun c => strContains c.status "(healthy)") ∧
    (snapshotContainers cli s).unhealthyContainerCount =
      conts.countP (fun c =>
        strContains c.status "(unhealthy)"
          && !(strContains c.status "(healthy)")) ∧
    (snapshotContainers cli s).stackCount =
      s.stackCount + distinctLabelValueCount composeProjectLabel
        (conts.map (fun c => c.labels)) := by
  rw [snapshotContainers_some cli s conts h]
  refine ⟨buildContainerSnapshots_map_container cli conts, ?_,
    rfl, rfl, rfl, rfl, rfl⟩
  intro c hcm hf
  exact buildContainerSnapshots_mem_failed cli conts c hcm hf

/-- Witness for C8 at the scenario run, whose inspect calls all fail. -/
theorem claim_C8_witness :
    ((snapshotContainers scenarioCalls initialSnapshot).snapshotRaw.containers.map
        (fun cs => cs.container) = scenarioContainers) ∧
    (∀ c ∈ scenarioContainers,
      scenarioCalls.containerInspect c.id = none →
      ({ container := c, env := [] } : DockerContainerSnapshot) ∈
        (snapshotContainers scenarioCalls initialSnapshot).snapshotRaw.containers) ∧
    (snapshotContainers scenarioCalls initialSnapshot).runningContainerCount =
      scenarioContainers.countP (fun c => decide (c.state = "running")) ∧
    (snapshotContainers scenarioCalls initialSnapshot).stoppedContainerCount =
      scenarioContainers.countP (fun c => decide (c.state = "exited")) ∧
    (snapshotContainers scenarioCalls initialSnapshot).healthyContainerCount =
      scenarioContainers.countP (fun c => strContains c.status "(healthy)") ∧
    (snapshotContainers scenarioCalls initialSnapshot).unhealthyContainerCount =
      scenarioContainers.countP (fun c =>
        strContains c.status "(unhealthy)"
          && !(strContains c.status "(healthy)")) ∧
    (snapshotContainers scenarioCalls initialSnapshot).stackCount =
      initialSnapshot.stackCount + distinctLabelValueCount composeProjectLabel
        (scenarioContainers.map (fun c => c.labels)) :=
  claim_C8 scenarioCalls initialSnapshot scenarioContainers rfl

/-- Claim C10: the running, stopped, healthy, unhealthy and stack counts
depend only on the container list, not on which inspect calls succeed:
two runs over the same list agree on every count, and their raw lists
carry the same containers (inspect only affects the env fields). -/
theorem claim_C10 (cli1 cli2 : DockerCalls) (s : DockerSnapshot)
    (conts : List Container) (h1 : cli1.containerListRes = some conts)
    (h2 : cli2.containerListRes = some conts) :
    (snapshotContainers cli1 s).runningContainerCount =
      (snapshotContainers cli2 s).runningContainerCount ∧
    (snapshotContainers cli1 s).stoppedContainerCount =
      (snapshotContainers cli2 s).stoppedContainerCount ∧
    (snapshotContainers cli1 s).healthyContainerCount =
      (snapshotContainers cli2 s).healthyContainerCount ∧
    (snapshotContainers cli1 s).unhealthyContainerCount =
      (snapshotContainers cli2 s).unhealthyContainerCount ∧
    (snapshotContainers cli1 s).stackCount =
      (snapshotContainers cli2 s).stackCount ∧
    (snapshotContainers cli1 s).snapshotRaw.containers.map
        (fun cs => cs.container) =
      (snapshotContainers cli2 s).snapshotRaw.containers.map
        (fun cs => cs.container) := by
  rw [snapshotContainers_some cli1 s conts h1,
    snapshotContainers_some cli2 s conts h2]
  refine ⟨rfl, rfl, rfl, rfl, rfl, ?_⟩
  rw [buildContainerSnapshots_map_container, buildContainerSnapshots_map_container]

/-- Witness for C10: the scenario run with all inspects failing against
the same run with all inspects succeeding. -/
theorem claim_C10_witness :
    (snapshotContainers scenarioCalls initialSnapshot).runningContainerCount =
      (snapshotContainers scenarioCallsInspectOk initialSnapshot).runningContainerCount ∧
    (snapshotContainers scenarioCalls initialSnapshot).stoppedContainerCount =
      (snapshotContainers scenarioCallsInspectOk initialSnapshot).stoppedContainerCount ∧
    (snapshotContainers scenarioCalls initialSnapshot).healthyContainerCount =
      (snapshotContainers scenarioCallsInspectOk initialSnapshot).healthyContainerCount ∧
    (snapshotContainers scenarioCalls initialSnapshot).unhealthyContainerCount =
      (snapshotContainers scenarioCallsInspectOk initialSnapshot).unhealthyContainerCount ∧
    (snapshotContainers scenarioCalls initialSnapshot).stackCount =
      (snapshotContainers scenarioCallsInspectOk initialSnapshot).stackCount ∧
    (snapshotContainers scenarioCalls initialSnapshot).snapshotRaw.containers.map
        (fun cs => cs.container) =
      (snapshotContainers scenarioCallsInspectOk initialSnapshot).snapshotRaw.containers.map
        (fun cs => cs.container) :=
  claim_C10 scenarioCalls scenarioCallsInspectOk initialSnapshot
    scenarioContainers rfl rfl


/-! Concrete swarm-mode example inputs used by the witnesses. -/

/-- Engine info of a swarm manager. -/
def exampleSwarmInfo : Info :=
  { swarm := { controlAvailable := true }, serverVersion := "26.0.0",
    ncpu := 8, memTotal := 16384 }

/-- Three services over two distinct stack namespaces. -/
def exampleServices : List Service :=
  [{ spec := { labels := [(stackNamespaceLabel, "alpha"), ("tier", "front")] } },
   { spec := { labels := [(stackNamespaceLabel, "beta")] } },
   { spec := { labels := [(stackNamespaceLabel, "alpha")] } }]

/-- Two nodes: 2.5 + 1.6 nano-CPU billions, 512 + 256 memory bytes. -/
def exampleNodes : List Node :=
  [{ description := { resources := { nanoCPUs := 2500000000, memoryBytes := 512 } } },
   { description := { resources := { nanoCPUs := 1600000000, memoryBytes := 256 } } }]

/-- Three containers over two distinct compose projects. -/
def exampleLabeledContainers : List Container :=
  [{ id := "c1", state := "running", status := "Up (healthy)",
     labels := [(composeProjectLabel, "web")] },
   { id := "c2", state := "exited", status := "Exited (0)",
     labels := [(composeProjectLabel, "web")] },
   { id := "c3", state := "paused", status := "Paused",
     labels := [(composeProjectLabel, "db"), ("x", "y")] }]

/-- A fully successful swarm-mode run (only the inspect of c2 and c3
fail). -/
def exampleSwarmCalls : DockerCalls :=
  { newClientOk := true, pingOk := true, infoRes := some exampleSwarmInfo,
    serviceListRes := some exampleServices, nodeListRes := some exampleNodes,
    containerListRes := some exampleLabeledContainers,
    containerInspect := fun i => if i = "c1" then some ["PATH=/bin"] else none,
    imageListRes := some [{ id := "img1" }],
    volumeListRes := some { volumes := [{ name := "v1" }, { name := "v2" }] },
    networkListRes := some [{ name := "bridge" }],
    versionRes := some { version := "26.0.0" },
    now := 1700000001 }

/-- The same run with the node listing failing. -/
def exampleSwarmNoNodesCalls : DockerCalls :=
  { exampleSwarmCalls with nodeListRes := none }

/-- The raw per-container list the example run produces. -/
def exampleSwarmRawContainers : List DockerContainerSnapshot :=
  [{ container :=
       { id := "c1", state := "running", status := "Up (healthy)",
         labels := [(composeProjectLabel, "web")] },
     env := ["PATH=/bin"] },
   { container :=
       { id := "c2", state := "exited", status := "Exited (0)",
         labels := [(composeProjectLabel, "web")] },
     env := [] },
   { container :=
       { id := "c3", state := "paused", status := "Paused",
         labels := [(composeProjectLabel, "db"), ("x", "y")] },
     env := [] }]

/-- The snapshot the example swarm run produces. -/
def exampleSwarmSnapshot : DockerSnapshot :=
  { time := 1700000001, dockerVersion := "26.0.0", swarm := true,
    totalCPU := 4, totalMemory := 768,
    runningContainerCount := 1, stoppedContainerCount := 1,
    healthyContainerCount := 1, unhealthyContainerCount := 0,
    volumeCount := 2, imageCount := 1, serviceCount := 3,
    stackCount := 4, nodeCount := 2,
    snapshotRaw :=
      { info := some exampleSwarmInfo,
        containers := exampleSwarmRawContainers,
        images := [{ id := "img1" }],
        volumes := some { volumes := [{ name := "v1" }, { name := "v2" }] },
        networks := [{ name := "bridge" }],
        version := some { version := "26.0.0" } } }

/-- The snapshot the node-listing-failure run produces: the totals stay
at the engine-info values and the node count stays zero. -/
def exampleSwarmNoNodesSnapshot : DockerSnapshot :=
  { exampleSwarmSnapshot with
    totalCPU := 8, totalMemory := 16384, nodeCount := 0 }

lemma createSnapshot_exampleSwarm :
    createSnapshot exampleSwarmCalls = some exampleSwarmSnapshot := by
  decide

lemma createSnapshot_exampleSwarmNoNodes :
    createSnapshot exampleSwarmNoNodesCalls =
      some exampleSwarmNoNodesSnapshot := by
  decide

/-- Claim C2: the stack count is the number of distinct
`com.docker.stack.namespace` values over the services plus the number of
distinct `com.docker.compose.project` values over the containers, the two
contributions added without cross-deduplication. -/
theorem claim_C2 (cli : DockerCalls) (info : Info) (services : List Service)
    (conts : List Container) (s : DockerSnapshot)
    (hc : cli.newClientOk = true) (hp : cli.pingOk = true)
    (hi : cli.infoRes = some info) (hsw : info.swarm.controlAvailable = true)
    (hs : cli.serviceListRes = some services)
    (hcont : cli.containerListRes = some conts)
    (hres : createSnapshot cli = some s) :
    s.stackCount =
      distinctLabelValueCount stackNamespaceLabel
        (services.map (fun svc => svc.spec.labels)) +
      distinctLabelValueCount composeProjectLabel
        (conts.map (fun c => c.labels)) := by
  rw [createSnapshot_ok cli hc hp] at hres
  replace hres := Option.some.inj hres
  subst hres
  have hswarm : (snapshotInfo cli initialSnapshot).swarm = true := by
    unfold snapshotInfo
    rw [hi]
    exact hsw
  rw [hswarm]
  rw [if_pos rfl]
  rw [snapshotSwarmServices_some cli (snapshotInfo cli initialSnapshot) services hs]
  rw [snapshotContainers_some cli _ conts hcont]
  simp [initialSnapshot]

/-- Witness for C2 at the example swarm run: 2 service stacks plus 2
compose stacks. -/
theorem claim_C2_witness :
    exampleSwarmSnapshot.stackCount =
      distinctLabelValueCount stackNamespaceLabel
        (exampleServices.map (fun svc => svc.spec.labels)) +
      distinctLabelValueCount composeProjectLabel
        (exampleLabeledContainers.map (fun c => c.labels)) :=
  claim_C2 exampleSwarmCalls exampleSwarmInfo exampleServices
    exampleLabeledContainers exampleSwarmSnapshot rfl rfl rfl rfl rfl rfl
    createSnapshot_exampleSwarm

/-- Two nodes of 2^62 nano-CPUs each: their `int64` accumulation wraps
to the minimum `int64` value. -/
def overflowNodes : List Node :=
  [{ description := { resources :=
       { nanoCPUs := 4611686018427387904, memoryBytes := 0 } } },
   { description := { resources :=
       { nanoCPUs := 4611686018427387904, memoryBytes := 0 } } }]

/-- The example swarm run with the overflowing node list. -/
def overflowCalls : DockerCalls :=
  { exampleSwarmCalls with nodeListRes := some overflowNodes }

/-- The snapshot the overflowing run produces: the wrapped nano-CPU sum
is -2^63, whose truncated quotient by 1e9 is negative. -/
def overflowSnapshot : DockerSnapshot :=
  { exampleSwarmSnapshot with
    totalCPU := -9223372036, totalMemory := 0, nodeCount := 2 }

/-- Claim C5 counterexample: on a node list whose nano-CPU values sum
past the `int64` range, the program's total CPU is the truncated quotient
of the wrapped (negative) sum, not of the plain sum, so the claimed
formula fails while swarm mode is true and the node listing succeeds. -/
theorem claim_C5_counterexample :
    overflowCalls.infoRes = some exampleSwarmInfo ∧
    exampleSwarmInfo.swarm.controlAvailable = true ∧
    overflowCalls.nodeListRes = some overflowNodes ∧
    createSnapshot overflowCalls = some overflowSnapshot ∧
    overflowSnapshot.totalCPU = -9223372036 ∧
    ((overflowNodes.map
      (fun n : Node => n.description.resources.nanoCPUs)).sum).tdiv
      1000000000 = 9223372036 := by
  refine ⟨rfl, rfl, rfl, by decide, by decide, by decide⟩

/-- Claim C5 (amended): in swarm mode with a successful node listing,
total CPU is the truncated quotient by 1e9 of the wrapping-int64 sum of
the nano-CPUs and total memory is the wrapping-int64 sum of the memory
bytes (both overriding the engine-info values), the node count is the
number of listed nodes, and whenever no intermediate accumulation leaves
the `int64` range these coincide with the plain sums of the original
claim. -/
theorem claim_C5 (cli : DockerCalls) (info : Info) (nodes : List Node)
    (s : DockerSnapshot)
    (hc : cli.newClientOk = true) (hp : cli.pingOk = true)
    (hi : cli.infoRes = some info) (hsw : info.swarm.controlAvailable = true)
    (hn : cli.nodeListRes = some nodes)
    (hres : createSnapshot cli = some s) :
    s.totalCPU =
      (int64Sum (nodes.map
        (fun n : Node => n.description.resources.nanoCPUs))).tdiv
        1000000000 ∧
    s.totalMemory =
      int64Sum (nodes.map
        (fun n : Node => n.description.resources.memoryBytes)) ∧
    s.nodeCount = nodes.length ∧
    ((∀ i, i ≤ nodes.length → inInt64Range
        (((nodes.map
          (fun n : Node => n.description.resources.nanoCPUs)).take i).sum)) →
      s.totalCPU =
        ((nodes.map
          (fun n : Node => n.description.resources.nanoCPUs)).sum).tdiv
          1000000000) ∧
    ((∀ i, i ≤ nodes.length → inInt64Range
        (((nodes.map
          (fun n : Node => n.description.resources.memoryBytes)).take i).sum)) →
      s.totalMemory =
        (nodes.map
          (fun n : Node => n.description.resources.memoryBytes)).sum) := by
  rw [createSnapshot_ok cli hc hp] at hres
  replace hres := Option.some.inj hres
  subst hres
  have hswarm : (snapshotInfo cli initialSnapshot).swarm = true := by
    unfold snapshotInfo
    rw [hi]
    exact hsw
  rw [hswarm]
  rw [if_pos rfl]
  rw [snapshotNodes_some cli _ nodes hn]
  refine ⟨by simp, by simp, by simp, ?_, ?_⟩
  · intro hrange
    have hsum := int64Sum_eq_sum
      (nodes.map (fun n : Node => n.description.resources.nanoCPUs))
      (by simpa using hrange)
    simp [hsum]
  · intro hrange
    have hsum := int64Sum_eq_sum
      (nodes.map (fun n : Node => n.description.resources.memoryBytes))
      (by simpa using hrange)
    simp [hsum]

/-- Witness for the amended C5 at the example swarm run: the wrapped
sums stay in range, (2.5e9 + 1.6e9) / 1e9 truncates to 4, memory sums to
768, node count 2, and the plain-sum formula is recovered. -/
theorem claim_C5_witness :
    exampleSwarmSnapshot.totalCPU =
      (int64Sum (exampleNodes.map
        (fun n : Node => n.description.resources.nanoCPUs))).tdiv
        1000000000 ∧
    exampleSwarmSnapshot.totalMemory =
      int64Sum (exampleNodes.map
        (fun n : Node => n.description.resources.memoryBytes)) ∧
    exampleSwarmSnapshot.nodeCount = exampleNodes.length ∧
    exampleSwarmSnapshot.totalCPU =
      ((exampleNodes.map
        (fun n : Node => n.description.resources.nanoCPUs)).sum).tdiv
        1000000000 :=
  have h := claim_C5 exampleSwarmCalls exampleSwarmInfo exampleNodes
    exampleSwarmSnapshot rfl rfl rfl rfl rfl createSnapshot_exampleSwarm
  ⟨h.1, h.2.1, h.2.2.1, h.2.2.2.1 (by
    intro i hi
    have h2 : i ≤ 2 := hi
    unfold inInt64Range
    interval_cases i <;> decide)⟩


/-- Claim C6: in swarm mode, when the node listing fails, the node count
stays 0, the CPU and memory totals keep the engine-info values, the
collection still returns without a fatal error, and the container, image,
volume, network and version steps still run and populate their fields. -/
theorem claim_C6 (cli : DockerCalls) (info : Info)
    (hc : cli.newClientOk = true) (hp : cli.pingOk = true)
    (hi : cli.infoRes = some info) (hsw : info.swarm.controlAvailable = true)
    (hn : cli.nodeListRes = none) :
    (∃ s, createSnapshot cli = some s) ∧
    (∀ s, createSnapshot cli = some s →
      s.nodeCount = 0 ∧ s.totalCPU = info.ncpu ∧
      s.totalMemory = info.memTotal ∧
      (∀ conts, cli.containerListRes = some conts →
        s.snapshotRaw.containers = buildContainerSnapshots cli conts) ∧
      (∀ imgs, cli.imageListRes = some imgs → s.imageCount = imgs.length) ∧
      (∀ vols, cli.volumeListRes = some vols →
        s.volumeCount = vols.volumes.length) ∧
      (∀ nets, cli.networkListRes = some nets →
        s.snapshotRaw.networks = nets) ∧
      (∀ ver, cli.versionRes = some ver →
        s.snapshotRaw.version = some ver)) := by
  have hswarm : (snapshotInfo cli initialSnapshot).swarm = true := by
    unfold snapshotInfo
    rw [hi]
    exact hsw
  have hnid : ∀ x, snapshotNodes cli x = x := by
    intro x
    unfold snapshotNodes
    rw [hn]
  constructor
  · exact ⟨_, createSnapshot_ok cli hc hp⟩
  · intro s hres
    rw [createSnapshot_ok cli hc hp] at hres
    replace hres := Option.some.inj hres
    subst hres
    rw [hswarm, if_pos rfl, hnid]
    have hcpu : (snapshotInfo cli initialSnapshot).totalCPU = info.ncpu := by
      unfold snapshotInfo
      rw [hi]
    have hmem : (snapshotInfo cli initialSnapshot).totalMemory =
        info.memTotal := by
      unfold snapshotInfo
      rw [hi]
    refine ⟨by simp [initialSnapshot], by simp [hcpu], by simp [hmem],
      ?_, ?_, ?_, ?_, ?_⟩
    · intro conts hconts
      rw [snapshotContainers_some cli _ conts hconts]
      simp
    · intro imgs himgs
      have himg : ∀ x, (snapshotImages cli x).imageCount = imgs.length := by
        intro x
        unfold snapshotImages
        rw [himgs]
      simp [himg]
    · intro vols hvols
      have hvol : ∀ x, (snapshotVolumes cli x).volumeCount =
          vols.volumes.length := by
        intro x
        unfold snapshotVolumes
        rw [hvols]
      simp [hvol]
    · intro nets hnets
      have hnet : ∀ x, (snapshotNetworks cli x).snapshotRaw.networks = nets := by
        intro x
        unfold snapshotNetworks
        rw [hnets]
      simp [hnet]
    · intro ver hver
      unfold snapshotVersion
      rw [hver]

/-- Witness for C6 at the node-listing-failure run. -/
theorem claim_C6_witness :
    exampleSwarmNoNodesSnapshot.nodeCount = 0 ∧
    exampleSwarmNoNodesSnapshot.totalCPU = exampleSwarmInfo.ncpu ∧
    exampleSwarmNoNodesSnapshot.totalMemory = exampleSwarmInfo.memTotal ∧
    (∀ conts, exampleSwarmNoNodesCalls.containerListRes = some conts →
      exampleSwarmNoNodesSnapshot.snapshotRaw.containers =
        buildContainerSnapshots exampleSwarmNoNodesCalls conts) ∧
    (∀ imgs, exampleSwarmNoNodesCalls.imageListRes = some imgs →
      exampleSwarmNoNodesSnapshot.imageCount = imgs.length) ∧
    (∀ vols, exampleSwarmNoNodesCalls.volumeListRes = some vols →
      exampleSwarmNoNodesSnapshot.volumeCount = vols.volumes.length) ∧
    (∀ nets, exampleSwarmNoNodesCalls.networkListRes = some nets →
      exampleSwarmNoNodesSnapshot.snapshotRaw.networks = nets) ∧
    (∀ ver, exampleSwarmNoNodesCalls.versionRes = some ver →
      exampleSwarmNoNodesSnapshot.snapshotRaw.version = some ver) :=
  (claim_C6 exampleSwarmNoNodesCalls exampleSwarmInfo rfl rfl rfl rfl rfl).2
    exampleSwarmNoNodesSnapshot createSnapshot_exampleSwarmNoNodes

/-- Claim C9: if the engine-info step fails, the swarm flag stays false,
so the service and node steps never run — the result does not depend on
the service or node listings at all — and the service and node counts
stay zero, even if the engine is actually in swarm mode. -/
theorem claim_C9 (cli : DockerCalls) (hc : cli.newClientOk = true)
    (hp : cli.pingOk = true) (hi : cli.infoRes = none) :
    (∀ svc nd,
      createSnapshot { cli with serviceListRes := svc, nodeListRes := nd } =
        createSnapshot cli) ∧
    (∀ s, createSnapshot cli = some s →
      s.swarm = false ∧ s.serviceCount = 0 ∧ s.nodeCount = 0) := by
  have hid : ∀ x, snapshotInfo cli x = x := by
    intro x
    unfold snapshotInfo
    rw [hi]
  constructor
  · intro svc nd
    rw [createSnapshot_ok cli hc hp,
      createSnapshot_ok { cli with serviceListRes := svc, nodeListRes := nd }
        hc hp]
    rw [snapshotInfo_congr cli
      { cli with serviceListRes := svc, nodeListRes := nd } rfl]
    rw [hid]
    rw [if_neg (by simp [initialSnapshot])]
    rw [snapshotContainers_congr cli
      { cli with serviceListRes := svc, nodeListRes := nd } rfl rfl]
    rw [snapshotImages_congr cli
      { cli with serviceListRes := svc, nodeListRes := nd } rfl]
    rw [snapshotVolumes_congr cli
      { cli with serviceListRes := svc, nodeListRes := nd } rfl]
    rw [snapshotNetworks_congr cli
      { cli with serviceListRes := svc, nodeListRes := nd } rfl]
    rw [snapshotVersion_congr cli
      { cli with serviceListRes := svc, nodeListRes := nd } rfl]
    rw [if_neg (by simp [initialSnapshot])]
  · intro s hres
    rw [createSnapshot_ok cli hc hp] at hres
    replace hres := Option.some.inj hres
    subst hres
    rw [hid]
    rw [if_neg (by simp [initialSnapshot])]
    refine ⟨by simp [initialSnapshot], by simp [initialSnapshot],
      by simp [initialSnapshot]⟩

/-- Witness for C9 at the all-listings-fail run, with a service and node
list spliced in. -/
theorem claim_C9_witness :
    (createSnapshot
        { exampleCallsAllFail with
          serviceListRes := some exampleServices,
          nodeListRes := some exampleNodes } =
      createSnapshot exampleCallsAllFail) ∧
    (({ initialSnapshot with time := 1700000000 } : DockerSnapshot).swarm
        = false ∧
      ({ initialSnapshot with time := 1700000000 } : DockerSnapshot).serviceCount
        = 0 ∧
      ({ initialSnapshot with time := 1700000000 } : DockerSnapshot).nodeCount
        = 0) :=
  ⟨(claim_C9 exampleCallsAllFail rfl rfl rfl).1 (some exampleServices)
      (some exampleNodes),
    (claim_C9 exampleCallsAllFail rfl rfl rfl).2
      { initialSnapshot with time := 1700000000 } rfl⟩

end PortainerAgent
